import Mathlib

/-!
Verification of the escalation and intent state machine of a customer-support
chatbot. The Python sources (memory_manager.py, escalation_manager.py,
agent.py, admin_store.py, tools.py) are shallowly embedded: pure functions
become Lean functions, mutable objects become explicit state values threaded
through the operations, wall-clock time and the external capabilities
(language model, vector retrieval) become explicit parameters.

Unicode notes: the Python sources contain mojibake emoji sequences (the
files hold the double-encoded characters literally); those characters are
reconstructed here by codepoint.  Characters such as the ASCII apostrophe
are likewise built by codepoint.  Pythons str.lower/str.upper are modelled
per character with Char.toLower/Char.toUpper (correct on ASCII; the Bangla
block is uncased, so the messages this system manipulates are unaffected).
-/

/-- ASCII apostrophe, built by codepoint. -/
def apoc : Char := Char.ofNat 39

/-- ASCII apostrophe as a one-character string. -/
def apos : String := String.singleton apoc

/-- Whitespace recognised by Python str.strip and the regex class \s
(space, tab, newline, carriage return, form feed, vertical tab). -/
def isSpaceChar (c : Char) : Bool :=
  c = ' ' || c = '\t' || c = '\n' || c = '\r' || c = Char.ofNat 11 || c = Char.ofNat 12

/-- ASCII letter, the regex class [a-zA-Z]. -/
def isAsciiAlpha (c : Char) : Bool :=
  ('a' ≤ c && c ≤ 'z') || ('A' ≤ c && c ≤ 'Z')

/-- The regex class [অ-হA-Za-z]: Bangla letters U+0985..U+09B9 or ASCII letters. -/
def isBanglaClassChar (c : Char) : Bool :=
  (0x985 ≤ c.toNat && c.toNat ≤ 0x9B9) || isAsciiAlpha c

/-- Word character for the regex boundary \b: ASCII alphanumerics, the
underscore, and the Bangla block (the only non-ASCII text this system
handles). -/
def isWordChar (c : Char) : Bool :=
  c.isAlphanum || c = '_' || (0x980 ≤ c.toNat && c.toNat ≤ 0x9FF)

/-- Python str.lower, per character (ASCII). -/
def lowerStr (s : String) : String := String.mk (s.data.map Char.toLower)

/-- Python str.upper, per character (ASCII). -/
def upperStr (s : String) : String := String.mk (s.data.map Char.toUpper)

/-- Strip leading and trailing whitespace from a character list. -/
def stripChars (l : List Char) : List Char :=
  ((l.dropWhile isSpaceChar).reverse.dropWhile isSpaceChar).reverse

/-- Python str.strip. -/
def stripStr (s : String) : String := String.mk (stripChars s.data)

/-- Substring test on character lists: does needle occur in hay. -/
def containsSub (needle : List Char) : List Char → Bool
  | [] => needle.isEmpty
  | c :: t => needle.isPrefixOf (c :: t) || containsSub needle t

/-- The Python expression needle in hay on strings. -/
def containsStr (hay needle : String) : Bool := containsSub needle.data hay.data

/-- Python str.title on a character list: uppercase every ASCII letter that
does not follow an ASCII letter, lowercase the others; the flag carries
whether the previous character was a cased (ASCII) letter. -/
def titleChars : Bool → List Char → List Char
  | _, [] => []
  | prevAlpha, c :: t =>
      (if isAsciiAlpha c then (if prevAlpha then c.toLower else c.toUpper) else c)
        :: titleChars (isAsciiAlpha c) t

-- ==================================================
-- memory_manager.py : MemoryManager.extract_name
-- ==================================================

/-- Match, at the current position, the tail of one English pattern:
word boundary, the literal phrase, one or more whitespace characters, then
a captured run of at least two ASCII letters — and, when allowTwo is set
(the pattern "my name is"), the optional greedy extension of the capture
by one whitespace character and a second run of at least two letters.
prev is the character before the current position, used for the word
boundary. -/
def matchCaptureAt (phrase : List Char) (allowTwo : Bool) (prev : Option Char)
    (s : List Char) : Option (List Char) :=
  let boundary := match prev with | none => true | some p => !isWordChar p
  if boundary && phrase.isPrefixOf s then
    let rest := s.drop phrase.length
    let ws := rest.takeWhile isSpaceChar
    let rest2 := rest.dropWhile isSpaceChar
    if ws.isEmpty then none
    else
      let run1 := rest2.takeWhile isAsciiAlpha
      let rest3 := rest2.dropWhile isAsciiAlpha
      if run1.length < 2 then none
      else if allowTwo then
        match rest3 with
        | c :: rest4 =>
            if isSpaceChar c then
              let run2 := rest4.takeWhile isAsciiAlpha
              if 2 ≤ run2.length then some (run1 ++ c :: run2) else some run1
            else some run1
        | [] => some run1
      else some run1
  else none

/-- re.search for one English pattern: scan positions left to right,
carrying the previous character for the word boundary; return the first
capture. -/
def searchCapture (phrase : List Char) (allowTwo : Bool) :
    Option Char → List Char → Option (List Char)
  | prev, [] => matchCaptureAt phrase allowTwo prev []
  | prev, c :: t =>
      match matchCaptureAt phrase allowTwo prev (c :: t) with
      | some cap => some cap
      | none => searchCapture phrase allowTwo (some c) t

/-- Match, at the current position, one Bangla pattern
PHRASE\s+([অ-হA-Za-z]+) (no word boundary in these patterns). -/
def matchBanglaAt (phrase : List Char) (s : List Char) : Option (List Char) :=
  if phrase.isPrefixOf s then
    let rest := s.drop phrase.length
    let ws := rest.takeWhile isSpaceChar
    let rest2 := rest.dropWhile isSpaceChar
    if ws.isEmpty then none
    else
      let run := rest2.takeWhile isBanglaClassChar
      if run.isEmpty then none else some run
  else none

/-- re.search for one Bangla pattern. -/
def searchBangla (phrase : List Char) : List Char → Option (List Char)
  | [] => matchBanglaAt phrase []
  | c :: t =>
      match matchBanglaAt phrase (c :: t) with
      | some cap => some cap
      | none => searchBangla phrase t

/-- The Bangla phrase আমার নাম, by codepoint. -/
def banglaPhrase1 : List Char :=
  [Char.ofNat 0x986, Char.ofNat 0x9AE, Char.ofNat 0x9BE, Char.ofNat 0x9B0, ' ',
   Char.ofNat 0x9A8, Char.ofNat 0x9BE, Char.ofNat 0x9AE]

/-- The Bangla phrase আমি, by codepoint. -/
def banglaPhrase2 : List Char :=
  [Char.ofNat 0x986, Char.ofNat 0x9AE, Char.ofNat 0x9BF]

/-- The ordered pattern list of MemoryManager.extract_name: phrase,
whether the capture may extend to a second word, and whether the pattern is
one of the two Bangla patterns (searched without word boundary). -/
def name_patterns : List (List Char × Bool × Bool) :=
  [("my name is".data, true, false),
   ("i am".data, false, false),
   (['i', apoc, 'm'], false, false),
   ("call me".data, false, false),
   ("this is".data, false, false),
   (banglaPhrase1, false, true),
   (banglaPhrase2, false, true)]

/-- Run one pattern of the list over the message. -/
def runNamePattern (msg : List Char) : List Char × Bool × Bool → Option (List Char)
  | (ph, two, isB) => if isB then searchBangla ph msg else searchCapture ph two none msg

/-- Try the patterns in order; first pattern with a match wins. -/
def firstNameMatch (msg : List Char) : List (List Char × Bool × Bool) → Option (List Char)
  | [] => none
  | p :: ps =>
      match runNamePattern msg p with
      | some cap => some cap
      | none => firstNameMatch msg ps

/-- The stoplist of non-name words rejected by extract_name. -/
def name_blacklist : List String :=
  ["fine", "okay", "angry", "sad", "happy", "ready", "tired", "having", "trouble", "problem"]

/-- MemoryManager.extract_name: strip and lowercase the message, try the
patterns in order; on the first match, strip and title-case the capture and
reject it when its lowercase form is in the stoplist. -/
def extract_name (message : String) : Option String :=
  let msg := (stripChars message.data).map Char.toLower
  match firstNameMatch msg name_patterns with
  | none => none
  | some cap =>
      let name := titleChars false (stripChars cap)
      if name_blacklist.contains (String.mk (name.map Char.toLower)) then none
      else some (String.mk name)

-- ==================================================
-- memory_manager.py : MemoryManager._detect_intent
-- ==================================================

/-- The demand qualifiers of the refund branch of _detect_intent. -/
def demand_words : List String := ["want", "now", "immediately"]

/-- The complaint keywords of _detect_intent. -/
def complaint_words : List String := ["complaint", "angry", "not happy", "bad", "worst"]

/-- The human-request keywords of _detect_intent. -/
def human_words : List String := ["human", "agent", "support"]

/-- MemoryManager._detect_intent: lowercase the message and test the intent
labels in fixed order, GENERAL as fallback. -/
def detect_intent (message : String) : String :=
  let msg := lowerStr message
  if (extract_name message).isSome then "IDENTITY"
  else if containsStr msg "refund" then
    if demand_words.any (containsStr msg) then "REFUND_DEMAND" else "REFUND_INFO"
  else if complaint_words.any (containsStr msg) then "COMPLAINT"
  else if human_words.any (containsStr msg) then "HUMAN_REQUEST"
  else "GENERAL"

example : extract_name "I am fine" = none := by decide
example : extract_name "My name is Rahim" = some "Rahim" := by decide
example : extract_name "MY NAME IS RAHIM" = some "Rahim" := by decide
example : extract_name "i am sure my name is bob" = some "Bob" := by decide
example : detect_intent "i want a refund now" = "REFUND_DEMAND" := by decide
example : detect_intent "hello there" = "GENERAL" := by decide

-- ==================================================
-- memory_manager.py : MemoryManager state and operations
-- ==================================================

/-- One history entry: role, content, ISO timestamp. -/
structure Message where
  role : String
  content : String
  timestamp : String
deriving DecidableEq

/-- The mutable state of MemoryManager.  The intent counter is the
Counter object, read with default 0; conversation_start is the SLA clock
value (an opaque timestamp here). -/
structure MemoryManager where
  max_history : Nat
  sla_seconds : Nat
  user_id : Option String
  history : List Message
  intent_history : List String
  intent_counter : String → Nat
  failed_ai_replies : Nat
  conversation_start : String

/-- MemoryManager.__init__. -/
def initMemory (max_history : Nat) (sla_seconds : Nat) (user_id : Option String)
    (now : String) : MemoryManager :=
  { max_history := max_history
    sla_seconds := sla_seconds
    user_id := user_id
    history := []
    intent_history := []
    intent_counter := fun _ => 0
    failed_ai_replies := 0
    conversation_start := now }

/-- The list operation of MemoryManager._add_message: append, then pop the
front element when the capacity is exceeded. -/
def addCapped (cap : Nat) (l : List Message) (x : Message) : List Message :=
  let h := l ++ [x]
  if cap < h.length then h.tail else h

/-- MemoryManager._add_message. -/
def add_message (m : MemoryManager) (role content now : String) : MemoryManager :=
  { m with history := addCapped m.max_history m.history ⟨role, content, now⟩ }

/-- The deque of maxlen 10 holding recent intents: append, dropping the
oldest element when full. -/
def pushIntent (l : List String) (x : String) : List String :=
  let h := l ++ [x]
  if 10 < h.length then h.tail else h

/-- MemoryManager.add_user_message: store the message, detect its intent,
record it in the ring buffer and the counter; returns the intent. -/
def add_user_message (m : MemoryManager) (content now : String) : String × MemoryManager :=
  let m1 := add_message m "user" content now
  let intent := detect_intent content
  (intent,
   { m1 with
      intent_history := pushIntent m1.intent_history intent
      intent_counter := fun k =>
        if k = intent then m1.intent_counter k + 1 else m1.intent_counter k })

/-- MemoryManager.add_agent_message. -/
def add_agent_message (m : MemoryManager) (content now : String) : MemoryManager :=
  add_message m "assistant" content now

/-- MemoryManager.get_intent_count (Counter.get with default 0). -/
def get_intent_count (m : MemoryManager) (intent : String) : Nat :=
  m.intent_counter intent

/-- MemoryManager.get_formatted_history. -/
def get_formatted_history (m : MemoryManager) : String :=
  String.intercalate "\n" (m.history.map fun msg => upperStr msg.role ++ ": " ++ msg.content)

/-- MemoryManager.mark_failed_ai_reply. -/
def mark_failed_ai_reply (m : MemoryManager) : MemoryManager :=
  { m with failed_ai_replies := m.failed_ai_replies + 1 }

/-- MemoryManager.reset_failed_ai_replies. -/
def reset_failed_ai_replies (m : MemoryManager) : MemoryManager :=
  { m with failed_ai_replies := 0 }

/-- MemoryManager.clear (reset_sla sets the clock to the current time). -/
def memory_clear (m : MemoryManager) (now : String) : MemoryManager :=
  { m with
     history := []
     intent_history := []
     intent_counter := fun _ => 0
     failed_ai_replies := 0
     conversation_start := now }

/-- MemoryManager.should_store_long_term. -/
def should_store_long_term (intent : String) : Bool :=
  intent = "REFUND_DEMAND" || intent = "COMPLAINT" || intent = "HUMAN_REQUEST" ||
    intent = "IDENTITY"

/-- MemoryManager.extract_memory_text. -/
def extract_memory_text (message : String) : String := stripStr message

-- ==================================================
-- escalation_manager.py : EscalationManager
-- ==================================================

/-- One regex pattern of the escalation manager: either a literal phrase
wrapped in word boundaries (\bPHRASE\b), or \bP.*Q\b where the dot does
not cross newlines. -/
inductive EscPattern where
  | lit (s : String)
  | dotStar (p q : String)

/-- Word-boundary test between an optional previous character and an
optional next character: exactly one side is a word character (string
edges count as non-word). -/
def isBoundary (a b : Option Char) : Bool :=
  (a.map isWordChar).getD false != (b.map isWordChar).getD false

/-- Match \bLIT\b at the current position; prev is the preceding character. -/
def matchLitAt (lit : List Char) (prev : Option Char) (s : List Char) : Bool :=
  lit.isPrefixOf s &&
  isBoundary prev lit.head? &&
  isBoundary ((lit.getLast?).orElse fun _ => prev) ((s.drop lit.length).head?)

/-- Scan for Q followed by a word boundary, where the gap consumed so far
may not contain a newline (the regex dot). -/
def scanDotStar (q : List Char) : Option Char → List Char → Bool
  | prev, [] => matchLitAt q prev []
  | prev, c :: t =>
      matchLitAt q prev (c :: t) || (c != '\n' && scanDotStar q (some c) t)

/-- re.search for \bP.*Q\b starting at the current position. -/
def matchDotStarAt (p q : List Char) (prev : Option Char) (s : List Char) : Bool :=
  p.isPrefixOf s && isBoundary prev p.head? &&
    scanDotStar q (p.getLast?.orElse fun _ => prev) (s.drop p.length)

/-- re.search of one escalation pattern over the whole message. -/
def searchPattern (pat : EscPattern) : Option Char → List Char → Bool
  | prev, [] =>
      (match pat with
       | .lit l => matchLitAt l.data prev []
       | .dotStar p q => matchDotStarAt p.data q.data prev [])
  | prev, c :: t =>
      (match pat with
       | .lit l => matchLitAt l.data prev (c :: t)
       | .dotStar p q => matchDotStarAt p.data q.data prev (c :: t)) ||
      searchPattern pat (some c) t

/-- EscalationManager.high_patterns. -/
def high_patterns : List EscPattern :=
  [.lit "talk to human", .lit "real agent", .lit "human agent", .lit "i want a refund",
   .lit "refund denied", .lit "complaint", .lit "not happy", .lit "angry", .lit "legal",
   .lit "scam", .lit "fraud", .lit "hacked", .lit "bad service", .lit "worst experience"]

/-- EscalationManager.medium_patterns. -/
def medium_patterns : List EscPattern :=
  [.lit "how can i get a refund", .lit "refund process", .lit "refund procedure",
   .lit "refund steps", .lit "payment issue", .lit "billing issue"]

/-- EscalationManager.low_patterns. -/
def low_patterns : List EscPattern :=
  [.lit "refund policy", .lit "refund rules", .lit "refund terms", .lit "about refunds",
   .dotStar "what does" "refund", .dotStar "how does" "refund",
   .lit "what is this document about", .lit "summarize"]

/-- The escalation decision dictionary: level and reason. -/
structure EscDecision where
  level : String
  reason : String
deriving DecidableEq

/-- EscalationManager.should_escalate: lowercase the message, try the HIGH,
MEDIUM, LOW pattern tiers in order, default LOW / general query. -/
def should_escalate (user_message : String) : EscDecision :=
  let message := (lowerStr user_message).data
  if high_patterns.any (fun p => searchPattern p none message) then
    ⟨"HIGH", "User complaint, demand, or sensitive issue detected"⟩
  else if medium_patterns.any (fun p => searchPattern p none message) then
    ⟨"MEDIUM", "Sensitive topic – explain policy first"⟩
  else if low_patterns.any (fun p => searchPattern p none message) then
    ⟨"LOW", "Informational query"⟩
  else
    ⟨"LOW", "General query"⟩

example : (should_escalate "I am ANGRY about this").level = "HIGH" := by decide
example : (should_escalate "what is the refund process").level = "MEDIUM" := by decide
example : (should_escalate "what does your refund policy say").level = "LOW" := by decide
example : should_escalate "good morning" = ⟨"LOW", "General query"⟩ := by decide
example : (should_escalate "what does\nrefund").level = "LOW" := by decide

-- ==================================================
-- tools.py : TicketTool
-- ==================================================

/-- One decimal digit as a character. -/
def digitChar (n : Nat) : Char :=
  if n = 0 then '0' else if n = 1 then '1' else if n = 2 then '2' else if n = 3 then '3'
  else if n = 4 then '4' else if n = 5 then '5' else if n = 6 then '6' else if n = 7 then '7'
  else if n = 8 then '8' else '9'

/-- The numeric value of a decimal digit character (inverse of digitChar). -/
def charVal (c : Char) : Nat :=
  if c = '0' then 0 else if c = '1' then 1 else if c = '2' then 2 else if c = '3' then 3
  else if c = '4' then 4 else if c = '5' then 5 else if c = '6' then 6 else if c = '7' then 7
  else if c = '8' then 8 else 9

/-- Decimal digit string with explicit fuel (always called with enough). -/
def decimalDigitsAux : Nat → Nat → List Char
  | 0, _ => []
  | fuel + 1, n =>
      if n < 10 then [digitChar n]
      else decimalDigitsAux fuel (n / 10) ++ [digitChar (n % 10)]

/-- Decimal digit string of a natural number, most significant digit first
(the Python str(int) on the non-negative timestamps this code produces). -/
def decimalDigits (n : Nat) : List Char := decimalDigitsAux (n + 1) n

/-- TicketTool._generate_ticket_id, with the wall clock made explicit: the
integral part of the UTC timestamp is the parameter ts. -/
def generate_ticket_id (ts : Nat) : String :=
  String.mk ("TICKET-".data ++ decimalDigits ts)

/-- The ticket dictionary built by TicketTool.run. -/
structure Ticket where
  ticket_id : String
  issue : String
  reason : String
  priority : String
  status : String
  created_at : String
deriving DecidableEq

/-- TicketTool.run. -/
def ticket_tool_run (ts : Nat) (now : String) (user_message reason priority : String) :
    Ticket :=
  { ticket_id := generate_ticket_id ts
    issue := user_message
    reason := reason
    priority := priority
    status := "OPEN"
    created_at := now }

-- ==================================================
-- admin_store.py : AdminStore
-- ==================================================

/-- One stored escalation record. -/
structure Escalation where
  ticket_id : String
  user_id : String
  reason : String
  priority : String
  status : String
  conversation : List Message
  created_at : String
  updated_at : String
deriving DecidableEq

/-- AdminStore.add_escalation: append a fresh OPEN record. -/
def add_escalation (store : List Escalation) (ticket_id user_id reason priority : String)
    (conversation : List Message) (now : String) : List Escalation :=
  store ++ [{ ticket_id := ticket_id, user_id := user_id, reason := reason,
              priority := priority, status := "OPEN", conversation := conversation,
              created_at := now, updated_at := now }]

/-- AdminStore.get_ticket: first record with the given id. -/
def get_ticket (store : List Escalation) (tid : String) : Option Escalation :=
  store.find? (fun esc => esc.ticket_id = tid)

/-- The allowed status values of AdminStore.update_status. -/
def allowed_status (st : String) : Bool :=
  st = "OPEN" || st = "IN_PROGRESS" || st = "RESOLVED"

/-- The loop of AdminStore.update_status: rewrite the first record with the
given id; none when no record matches. -/
def updateFirst (tid st now : String) : List Escalation → Option (List Escalation)
  | [] => none
  | e :: rest =>
      if e.ticket_id = tid then some ({ e with status := st, updated_at := now } :: rest)
      else (updateFirst tid st now rest).map (e :: ·)

/-- AdminStore.update_status: uppercase the status, reject values outside
the three-element set, otherwise update the first matching record; returns
the success flag and the (possibly unchanged) store. -/
def update_status (store : List Escalation) (tid status now : String) :
    Bool × List Escalation :=
  let st := upperStr status
  if allowed_status st then
    match updateFirst tid st now store with
    | some store2 => (true, store2)
    | none => (false, store)
  else (false, store)

-- ==================================================
-- agent.py : CustomerSupportAgent
-- ==================================================

/-- CustomerSupportAgent._decide_priority: lowercase the reason, fraud
keywords give HIGH, refund keywords give MEDIUM, and the fallback is
MEDIUM as well. -/
def decide_priority (reason : String) : String :=
  let r := lowerStr reason
  if containsStr r "fraud" || containsStr r "scam" || containsStr r "hacked" then "HIGH"
  else if containsStr r "refund" || containsStr r "billing" || containsStr r "payment" then
    "MEDIUM"
  else "MEDIUM"

/-- CustomerSupportAgent._is_name_question. -/
def is_name_question (message : String) : Bool :=
  let msg := lowerStr message
  containsStr msg "my name" || containsStr msg "remember my name" ||
  containsStr msg "what is my name" || containsStr msg "amar naam" ||
  containsStr msg "amar nam ki"

/-- The small-talk whitelist of step 6 of get_full_response. -/
def isSmallTalk (message : String) : Bool :=
  let m := stripStr (lowerStr message)
  m = "hi" || m = "hello" || m = "hey" || m = "how are you"

/-- The mojibake emoji sequence before the human-takeover reply, by
codepoint (the source file contains these characters literally). -/
def emojiTakeover : String :=
  String.mk ([0xF0, 0x178, 0xA7, 0x2018, 0xE2, 0x20AC, 0xF0, 0x178, 0x2019, 0xBC].map
    Char.ofNat)

/-- The mojibake smiley sequence, by codepoint. -/
def emojiSmiley : String :=
  String.mk ([0xF0, 0x178, 0x2122, 0x201A].map Char.ofNat)

/-- The mojibake alarm sequence, by codepoint. -/
def emojiAlarm : String :=
  String.mk ([0xF0, 0x178, 0x161, 0xA8].map Char.ofNat)

/-- The mojibake ticket sequence, by codepoint. -/
def emojiTicket : String :=
  String.mk ([0xF0, 0x178, 0x17D, 0xAB].map Char.ofNat)

/-- The fixed reply returned while human takeover is active. -/
def human_takeover_reply : String :=
  emojiTakeover ++ " A human support agent is handling your issue.\n" ++
  "Please wait for their response."

/-- The mutable state of CustomerSupportAgent: memory, takeover flag, the
long-term user memory store (the texts that were stored), and the shared
admin escalation store. -/
structure Agent where
  user_id : String
  memory : MemoryManager
  human_takeover : Bool
  long_term_memory : List String
  admin_store : List Escalation

/-- CustomerSupportAgent.__init__ (stores start empty; the vector stores
themselves are external capabilities). -/
def initAgent (user_id : String) (now : String) : Agent :=
  { user_id := user_id
    memory := initMemory 20 1800 (some user_id) now
    human_takeover := false
    long_term_memory := []
    admin_store := [] }

/-- The external capabilities consumed by the agent: text generation,
long-term-memory retrieval (texts of the retrieved documents), and the
knowledge-base vector store (presence flag and retrieval). -/
structure Capabilities where
  llm : String → String
  relevant_memory : String → Nat → List String
  has_kb : Bool
  kb_search : String → Nat → List String

/-- The dictionary returned by get_full_response (source_documents is
empty for the branches that do not attach sources). -/
structure TurnResult where
  output : String
  escalated : Bool
  source_documents : List String := []
deriving DecidableEq

/-- CustomerSupportAgent._handle_escalation: create the ticket, store the
escalation record, flip the takeover flag, record and return the reply. -/
def handle_escalation (a : Agent) (ts : Nat) (now : String)
    (message reason priority : String) : String × Agent :=
  let ticket := ticket_tool_run ts now message reason priority
  let store2 := add_escalation a.admin_store ticket.ticket_id a.user_id reason priority
    a.memory.history now
  let reply :=
    emojiAlarm ++ " **This issue requires human assistance**\n\n" ++
    "**Reason:** " ++ reason ++ "\n" ++
    "**Priority:** " ++ priority ++ "\n\n" ++
    emojiTicket ++ " **Ticket ID:** " ++ ticket.ticket_id
  (reply,
   { a with
      admin_store := store2
      human_takeover := true
      memory := add_agent_message a.memory reply now })

/-- The generation prompt of step 8 of get_full_response. -/
def buildPrompt (memory_context history kb_context user_message : String) : String :=
  "\nYou are a professional customer support AI.\n\n" ++
  "Known information about this user:\n" ++ memory_context ++ "\n\n" ++
  "Conversation history:\n" ++ history ++ "\n\n" ++
  "Knowledge base info:\n" ++ kb_context ++ "\n\n" ++
  "User question:\n" ++ user_message ++ "\n\n" ++
  "Answer clearly and politely.\n"

/-- CustomerSupportAgent.get_full_response, with the wall clock (ts is the
integral UTC second used for the ticket id, now the ISO timestamp) and the
external capabilities as explicit parameters. -/
def get_full_response (caps : Capabilities) (ts : Nat) (now : String) (a : Agent)
    (user_message : String) : TurnResult × Agent :=
  if a.human_takeover then
    ({ output := human_takeover_reply, escalated := true }, a)
  else
    match extract_name user_message with
    | some name =>
        let a1 := { a with
          long_term_memory := a.long_term_memory ++ ["User name is " ++ name] }
        let reply := "Nice to meet you, " ++ name ++ " " ++ emojiSmiley
        ({ output := reply, escalated := false },
         { a1 with memory := add_agent_message a1.memory reply now })
    | none =>
      if is_name_question user_message then
        let memories := caps.relevant_memory "user name" 1
        let reply :=
          match memories with
          | stored :: _ =>
              "Yes " ++ emojiSmiley ++ " I remember your name. Your name is **" ++
                (stored.replace "User name is " "") ++ "**."
          | [] => "You haven" ++ apos ++ "t told me your name yet " ++ emojiSmiley
        ({ output := reply, escalated := false },
         { a with memory := add_agent_message a.memory reply now })
      else
        let step3 := add_user_message a.memory user_message now
        let intent := step3.1
        let a1 := { a with memory := step3.2 }
        let a2 := { a1 with long_term_memory :=
          if should_store_long_term intent then
            a1.long_term_memory ++ [extract_memory_text user_message]
          else a1.long_term_memory }
        if 2 ≤ get_intent_count a2.memory "REFUND_DEMAND" ∨
            2 ≤ get_intent_count a2.memory "COMPLAINT" then
          let esc := handle_escalation a2 ts now user_message
            "Repeated complaint or refund demand" "HIGH"
          ({ output := esc.1, escalated := true }, esc.2)
        else
          let decision := should_escalate user_message
          if decision.level = "HIGH" then
            let esc := handle_escalation a2 ts now user_message decision.reason
              (decide_priority decision.reason)
            ({ output := esc.1, escalated := true }, esc.2)
          else
            if isSmallTalk user_message then
              let reply := stripStr (caps.llm user_message)
              ({ output := reply, escalated := false },
               { a2 with memory := add_agent_message a2.memory reply now })
            else
              let past_memories := caps.relevant_memory user_message 3
              let memory_context :=
                match past_memories with
                | [] => ""
                | _ => String.intercalate "\n" (past_memories.map (fun m => "- " ++ m))
              let documents := if caps.has_kb then caps.kb_search user_message 3 else []
              let kb_context := String.intercalate "\n\n" documents
              let prompt := buildPrompt memory_context (get_formatted_history a2.memory)
                kb_context user_message
              let answer := stripStr (caps.llm prompt)
              ({ output := answer, escalated := false, source_documents := documents },
               { a2 with memory := add_agent_message a2.memory answer now })

/-- CustomerSupportAgent.clear_memory. -/
def clear_memory (a : Agent) (now : String) : Agent :=
  { a with memory := memory_clear a.memory now, human_takeover := false }

-- ==================================================
-- Theorems
-- ==================================================

/-- C3 counterexample: on a reason containing none of the six keywords the
priority function returns MEDIUM, not the LOW the claim states. -/
theorem decide_priority_default_is_medium :
    decide_priority "general inquiry" = "MEDIUM" ∧
    decide_priority "general inquiry" ≠ "LOW" ∧
    containsStr (lowerStr "general inquiry") "fraud" = false ∧
    containsStr (lowerStr "general inquiry") "scam" = false ∧
    containsStr (lowerStr "general inquiry") "hacked" = false ∧
    containsStr (lowerStr "general inquiry") "refund" = false ∧
    containsStr (lowerStr "general inquiry") "billing" = false ∧
    containsStr (lowerStr "general inquiry") "payment" = false := by decide

/-- C3 (amended): the ticket-priority decision returns HIGH when the
lowercased reason contains fraud, scam or hacked, MEDIUM when it contains
refund, billing or payment (and none of the former), and MEDIUM — not LOW —
when no keyword matches. -/
theorem decide_priority_keyword_rules (reason : String) :
    ((containsStr (lowerStr reason) "fraud" || containsStr (lowerStr reason) "scam" ||
        containsStr (lowerStr reason) "hacked") = true →
      decide_priority reason = "HIGH") ∧
    ((containsStr (lowerStr reason) "fraud" || containsStr (lowerStr reason) "scam" ||
        containsStr (lowerStr reason) "hacked") = false →
      (containsStr (lowerStr reason) "refund" || containsStr (lowerStr reason) "billing" ||
        containsStr (lowerStr reason) "payment") = true →
      decide_priority reason = "MEDIUM") ∧
    ((containsStr (lowerStr reason) "fraud" || containsStr (lowerStr reason) "scam" ||
        containsStr (lowerStr reason) "hacked") = false →
      (containsStr (lowerStr reason) "refund" || containsStr (lowerStr reason) "billing" ||
        containsStr (lowerStr reason) "payment") = false →
      decide_priority reason = "MEDIUM") := by
  refine ⟨fun h1 => ?_, fun h1 h2 => ?_, fun h1 h2 => ?_⟩ <;>
    simp [decide_priority, h1, *]

/-- C3 witness: the amended rules evaluated on concrete reasons. -/
theorem decide_priority_keyword_rules_witness :
    decide_priority "possible fraud attempt" = "HIGH" ∧
    decide_priority "refund dispute" = "MEDIUM" ∧
    decide_priority "something else" = "MEDIUM" :=
  ⟨(decide_priority_keyword_rules "possible fraud attempt").1 (by decide),
   (decide_priority_keyword_rules "refund dispute").2.1 (by decide) (by decide),
   (decide_priority_keyword_rules "something else").2.2 (by decide) (by decide)⟩

/-- C8: name extraction is case-insensitive, title-cases the capture,
rejects stoplist words, and tries its phrase patterns in order: the
stoplist rejects the capture of "I am fine"; "My name is Rahim" (in any
letter case) yields the title-cased "Rahim"; and the earlier "my name is"
pattern beats the later "i am" pattern when both could match. -/
theorem extract_name_examples :
    extract_name "I am fine" = none ∧
    extract_name "My name is Rahim" = some "Rahim" ∧
    extract_name "MY NAME IS RAHIM" = some "Rahim" ∧
    extract_name "i am sure my name is bob" = some "Bob" := by decide

/-- C7: the intent classifier is a total function into the six labels,
and tests the labels in the fixed order IDENTITY, REFUND_DEMAND,
REFUND_INFO, COMPLAINT, HUMAN_REQUEST, GENERAL with first match winning
(GENERAL when nothing matches); being a Lean function it is deterministic
and never fails. -/
theorem detect_intent_total_and_ordered :
    (∀ msg : String, detect_intent msg ∈
      (["IDENTITY", "REFUND_DEMAND", "REFUND_INFO", "COMPLAINT", "HUMAN_REQUEST",
        "GENERAL"] : List String)) ∧
    (∀ msg : String, (extract_name msg).isSome = true → detect_intent msg = "IDENTITY") ∧
    (∀ msg : String, extract_name msg = none →
      containsStr (lowerStr msg) "refund" = true →
      demand_words.any (containsStr (lowerStr msg)) = true →
      detect_intent msg = "REFUND_DEMAND") ∧
    (∀ msg : String, extract_name msg = none →
      containsStr (lowerStr msg) "refund" = true →
      demand_words.any (containsStr (lowerStr msg)) = false →
      detect_intent msg = "REFUND_INFO") ∧
    (∀ msg : String, extract_name msg = none →
      containsStr (lowerStr msg) "refund" = false →
      complaint_words.any (containsStr (lowerStr msg)) = true →
      detect_intent msg = "COMPLAINT") ∧
    (∀ msg : String, extract_name msg = none →
      containsStr (lowerStr msg) "refund" = false →
      complaint_words.any (containsStr (lowerStr msg)) = false →
      human_words.any (containsStr (lowerStr msg)) = true →
      detect_intent msg = "HUMAN_REQUEST") ∧
    (∀ msg : String, extract_name msg = none →
      containsStr (lowerStr msg) "refund" = false →
      complaint_words.any (containsStr (lowerStr msg)) = false →
      human_words.any (containsStr (lowerStr msg)) = false →
      detect_intent msg = "GENERAL") := by
  refine ⟨fun msg => ?_, fun msg h1 => ?_, fun msg h1 h2 h3 => ?_,
    fun msg h1 h2 h3 => ?_, fun msg h1 h2 h3 => ?_, fun msg h1 h2 h3 h4 => ?_,
    fun msg h1 h2 h3 h4 => ?_⟩
  · by_cases h1 : (extract_name msg).isSome = true <;>
    by_cases h2 : containsStr (lowerStr msg) "refund" = true <;>
    by_cases h3 : demand_words.any (containsStr (lowerStr msg)) = true <;>
    by_cases h4 : complaint_words.any (containsStr (lowerStr msg)) = true <;>
    by_cases h5 : human_words.any (containsStr (lowerStr msg)) = true <;>
    simp [detect_intent, h1, h2, h3, h4, h5]
  all_goals simp [detect_intent, h1, *]

/-- C7 witness: each conditional rule of the classifier evaluated at a
concrete message; in particular a refund demand wins over complaint words
present in the same message. -/
theorem detect_intent_total_and_ordered_witness :
    detect_intent "my name is karim" = "IDENTITY" ∧
    detect_intent "i want a refund now, worst complaint" = "REFUND_DEMAND" ∧
    detect_intent "how does a refund work here" = "REFUND_INFO" ∧
    detect_intent "this service made me angry" = "COMPLAINT" ∧
    detect_intent "please connect me to a human" = "HUMAN_REQUEST" ∧
    detect_intent "good morning to everyone" = "GENERAL" :=
  ⟨detect_intent_total_and_ordered.2.1 "my name is karim" (by decide),
   detect_intent_total_and_ordered.2.2.1 "i want a refund now, worst complaint"
     (by decide) (by decide) (by decide),
   detect_intent_total_and_ordered.2.2.2.1 "how does a refund work here"
     (by decide) (by decide) (by decide),
   detect_intent_total_and_ordered.2.2.2.2.1 "this service made me angry"
     (by decide) (by decide) (by decide),
   detect_intent_total_and_ordered.2.2.2.2.2.1 "please connect me to a human"
     (by decide) (by decide) (by decide) (by decide),
   detect_intent_total_and_ordered.2.2.2.2.2.2 "good morning to everyone"
     (by decide) (by decide) (by decide) (by decide)⟩

/-- When no record carries the id, the update loop finds nothing. -/
lemma updateFirst_eq_none_of_get_ticket_eq_none (tid st now : String)
    (store : List Escalation) (h : get_ticket store tid = none) :
    updateFirst tid st now store = none := by
  induction store with
  | nil => rfl
  | cons e rest ih =>
      by_cases he : e.ticket_id = tid
      · simp [get_ticket, List.find?_cons_of_pos, he] at h
      · have h' : get_ticket rest tid = none := by
          simpa [get_ticket, List.find?_cons_of_neg, he] using h
        simp [updateFirst, he, ih h']

/-- When the id is present, the update loop rewrites exactly the first
matching record and the rewritten record is what get_ticket then sees. -/
lemma updateFirst_of_get_ticket_eq_some (tid st now : String)
    (store : List Escalation) (e : Escalation) (h : get_ticket store tid = some e) :
    ∃ store2, updateFirst tid st now store = some store2 ∧
      get_ticket store2 tid = some { e with status := st, updated_at := now } := by
  induction store with
  | nil => simp [get_ticket] at h
  | cons x rest ih =>
      by_cases hx : x.ticket_id = tid
      · have hex : e = x := by
          have := h
          simp [get_ticket, List.find?_cons_of_pos, hx] at this
          exact this.symm
        subst hex
        refine ⟨{ e with status := st, updated_at := now } :: rest, ?_, ?_⟩
        · simp [updateFirst, hx]
        · have hx2 : ({ e with status := st, updated_at := now } : Escalation).ticket_id
            = tid := hx
          simp only [get_ticket]
          exact List.find?_cons_of_pos rest (by simpa using hx2)
      · have h' : get_ticket rest tid = some e := by
          simpa [get_ticket, List.find?_cons_of_neg, hx] using h
        obtain ⟨s2, h1, h2⟩ := ih h'
        refine ⟨x :: s2, ?_, ?_⟩
        · simp [updateFirst, hx, h1]
        · simpa [get_ticket, List.find?_cons_of_neg, hx] using h2

/-- C9: update_status returns false and leaves the store untouched when
the ticket id is unknown or the (uppercased) status is not one of the
three allowed values; being a total Lean function it never fails. -/
theorem update_status_rejects_invalid (store : List Escalation)
    (tid status now : String)
    (h : get_ticket store tid = none ∨ allowed_status (upperStr status) = false) :
    update_status store tid status now = (false, store) := by
  rcases h with h | h
  · by_cases ha : allowed_status (upperStr status) = true
    · simp [update_status, ha, updateFirst_eq_none_of_get_ticket_eq_none _ _ now _ h]
    · have ha' : allowed_status (upperStr status) = false := by simpa using ha
      simp [update_status, ha']
  · simp [update_status, h]

/-- C9 witness: an unknown id and an invalid status each rejected on a
concrete one-record store. -/
theorem update_status_rejects_invalid_witness :
    update_status
      [{ ticket_id := "TICKET-1", user_id := "u1", reason := "fraud",
         priority := "HIGH", status := "OPEN", conversation := [],
         created_at := "t0", updated_at := "t0" }] "TICKET-2" "RESOLVED" "t1" =
      (false,
       [{ ticket_id := "TICKET-1", user_id := "u1", reason := "fraud",
          priority := "HIGH", status := "OPEN", conversation := [],
          created_at := "t0", updated_at := "t0" }]) ∧
    update_status
      [{ ticket_id := "TICKET-1", user_id := "u1", reason := "fraud",
         priority := "HIGH", status := "OPEN", conversation := [],
         created_at := "t0", updated_at := "t0" }] "TICKET-1" "CLOSED" "t1" =
      (false,
       [{ ticket_id := "TICKET-1", user_id := "u1", reason := "fraud",
          priority := "HIGH", status := "OPEN", conversation := [],
          created_at := "t0", updated_at := "t0" }]) :=
  ⟨update_status_rejects_invalid _ _ _ _ (Or.inl (by decide)),
   update_status_rejects_invalid _ _ _ _ (Or.inr (by decide))⟩

/-- C10: update_status uppercases its status argument before everything
else: with an existing ticket id, the call succeeds exactly when the
uppercased status is one of the three allowed values, and on success the
stored record carries the uppercase canonical status (and the new
updated_at); otherwise the call returns false with the store unchanged. -/
theorem update_status_uppercases_status (store : List Escalation)
    (tid v now : String) (e : Escalation) (he : get_ticket store tid = some e) :
    ((update_status store tid v now).1 = true ↔ allowed_status (upperStr v) = true) ∧
    (allowed_status (upperStr v) = true →
      get_ticket (update_status store tid v now).2 tid =
        some { e with status := upperStr v, updated_at := now }) ∧
    (allowed_status (upperStr v) = false →
      update_status store tid v now = (false, store)) := by
  by_cases ha : allowed_status (upperStr v) = true
  · obtain ⟨s2, h1, h2⟩ := updateFirst_of_get_ticket_eq_some tid (upperStr v) now store e he
    refine ⟨?_, fun _ => ?_, fun hf => ?_⟩
    · simp [update_status, ha, h1]
    · simpa [update_status, ha, h1] using h2
    · rw [hf] at ha; exact absurd ha (by simp)
  · have ha' : allowed_status (upperStr v) = false := by simpa using ha
    refine ⟨?_, fun ht => absurd ht ha, fun _ => ?_⟩ <;>
      simp [update_status, ha']

/-- C10 witness: the lowercase variant "resolved" is accepted on a
concrete store and stored as the canonical "RESOLVED". -/
theorem update_status_uppercases_status_witness :
    ((update_status
      [{ ticket_id := "TICKET-7", user_id := "u1", reason := "fraud",
         priority := "HIGH", status := "OPEN", conversation := [],
         created_at := "t0", updated_at := "t0" }] "TICKET-7" "resolved" "t1").1
      = true) ∧
    get_ticket (update_status
      [{ ticket_id := "TICKET-7", user_id := "u1", reason := "fraud",
         priority := "HIGH", status := "OPEN", conversation := [],
         created_at := "t0", updated_at := "t0" }] "TICKET-7" "resolved" "t1").2
      "TICKET-7" =
      some { ticket_id := "TICKET-7", user_id := "u1", reason := "fraud",
             priority := "HIGH", status := "RESOLVED", conversation := [],
             created_at := "t0", updated_at := "t1" } := by
  have h := update_status_uppercases_status
    [{ ticket_id := "TICKET-7", user_id := "u1", reason := "fraud",
       priority := "HIGH", status := "OPEN", conversation := [],
       created_at := "t0", updated_at := "t0" }] "TICKET-7" "resolved" "t1"
    { ticket_id := "TICKET-7", user_id := "u1", reason := "fraud",
      priority := "HIGH", status := "OPEN", conversation := [],
      created_at := "t0", updated_at := "t0" } (by decide)
  exact ⟨h.1.mpr (by decide), Eq.trans (h.2.1 (by decide)) (by decide)⟩

/-- One call of the public message-adding API of MemoryManager. -/
inductive MemEvent where
  | user (content now : String)
  | agent (content now : String)

/-- The message a call appends to the history. -/
def eventMessage : MemEvent → Message
  | .user c n => ⟨"user", c, n⟩
  | .agent c n => ⟨"assistant", c, n⟩

/-- Apply one API call to the manager state. -/
def applyMemEvent (m : MemoryManager) : MemEvent → MemoryManager
  | .user c n => (add_user_message m c n).2
  | .agent c n => add_agent_message m c n

/-- Apply a sequence of API calls. -/
def runMemory (m : MemoryManager) (evs : List MemEvent) : MemoryManager :=
  evs.foldl applyMemEvent m

lemma applyMemEvent_history (m : MemoryManager) (ev : MemEvent) :
    (applyMemEvent m ev).history = addCapped m.max_history m.history (eventMessage ev) ∧
    (applyMemEvent m ev).max_history = m.max_history := by
  cases ev <;>
    simp [applyMemEvent, add_user_message, add_agent_message, add_message, eventMessage]

lemma addCapped_length_le (cap : Nat) (l : List Message) (x : Message)
    (hl : l.length ≤ cap) : (addCapped cap l x).length ≤ cap := by
  simp only [addCapped]
  by_cases hc : cap < (l ++ [x]).length
  · rw [if_pos hc]
    simp at hc ⊢
    omega
  · rw [if_neg hc]
    simp at hc ⊢
    omega

/-- The capped append over a whole sequence keeps exactly the last cap
elements: the result is the suffix of the full message sequence. -/
lemma foldl_addCapped (cap : Nat) :
    ∀ (xs : List Message) (l : List Message), l.length ≤ cap →
      xs.foldl (addCapped cap) l = (l ++ xs).drop ((l ++ xs).length - cap) := by
  intro xs
  induction xs with
  | nil =>
      intro l hl
      simp [Nat.sub_eq_zero_of_le hl]
  | cons x xs ih =>
      intro l hl
      rw [List.foldl_cons]
      by_cases hlt : l.length < cap
      · have h1 : addCapped cap l x = l ++ [x] := by
          simp only [addCapped]
          rw [if_neg (by simp; omega)]
        rw [h1, ih (l ++ [x]) (by simp; omega)]
        rw [List.append_assoc, List.singleton_append]
      · have hle : l.length = cap := le_antisymm hl (le_of_not_lt hlt)
        have h1 : addCapped cap l x = (l ++ [x]).drop 1 := by
          simp only [addCapped]
          rw [if_pos (by simp; omega), ← List.drop_one]
        have h3 : ((l ++ [x]).drop 1).length ≤ cap := by
          simp; omega
        rw [h1, ih _ h3]
        have h4 : (l ++ [x]).drop 1 ++ xs = ((l ++ [x]) ++ xs).drop 1 :=
          (List.drop_append_of_le_length
            (by simp only [List.length_append, List.length_singleton]; omega)).symm
        have h4b : ((l ++ [x]) ++ xs).drop 1 = (l ++ x :: xs).drop 1 := by
          rw [List.append_assoc, List.singleton_append]
        rw [h4, h4b, List.drop_drop]
        congr 1
        simp only [List.length_drop, List.length_append, List.length_cons]
        omega

lemma runMemory_history (evs : List MemEvent) :
    ∀ (m : MemoryManager),
      (runMemory m evs).history =
        (evs.map eventMessage).foldl (addCapped m.max_history) m.history ∧
      (runMemory m evs).max_history = m.max_history := by
  induction evs with
  | nil => intro m; simp [runMemory]
  | cons ev evs ih =>
      intro m
      have h1 := applyMemEvent_history m ev
      have h2 := ih (applyMemEvent m ev)
      constructor
      · simp only [runMemory, List.foldl_cons, List.map_cons] at h2 ⊢
        rw [h2.1, h1.1, h1.2]
      · simp only [runMemory, List.foldl_cons] at h2 ⊢
        rw [h2.2, h1.2]

/-- C6: for every sequence of add_user_message / add_agent_message calls on
a fresh manager of capacity N, the history is exactly the suffix of the
appended message sequence that fits in N — so its length never exceeds N
and evictions always remove the oldest message first. -/
theorem history_capped_fifo (N sla : Nat) (uid : Option String) (now0 : String)
    (evs : List MemEvent) :
    (runMemory (initMemory N sla uid now0) evs).history =
      (evs.map eventMessage).drop (evs.length - N) ∧
    (runMemory (initMemory N sla uid now0) evs).history.length ≤ N := by
  have h := runMemory_history evs (initMemory N sla uid now0)
  have h2 := foldl_addCapped N (evs.map eventMessage) [] (by simp)
  constructor
  · rw [h.1]
    simpa using h2
  · rw [h.1]
    simp only [initMemory] at h2 ⊢
    rw [h2]
    simp
    omega

/-- The decimal value of a digit list (inverse direction of the digit
printer, used only to prove injectivity). -/
def digitsVal (l : List Char) : Nat :=
  l.foldl (fun acc c => 10 * acc + charVal c) 0

lemma charVal_digitChar (n : Nat) (h : n < 10) : charVal (digitChar n) = n := by
  interval_cases n <;> rfl

lemma digitsVal_append_single (l : List Char) (c : Char) :
    digitsVal (l ++ [c]) = 10 * digitsVal l + charVal c := by
  simp [digitsVal, List.foldl_append]

lemma decimalDigitsAux_val :
    ∀ (f n : Nat), n < f → digitsVal (decimalDigitsAux f n) = n := by
  intro f
  induction f with
  | zero => intro n h; omega
  | succ f ih =>
      intro n h
      by_cases h10 : n < 10
      · simp [decimalDigitsAux, h10, digitsVal, charVal_digitChar n h10]
      · have hlt : n / 10 < n := Nat.div_lt_self (by omega) (by omega)
        have hv := ih (n / 10) (by omega)
        rw [decimalDigitsAux, if_neg h10, digitsVal_append_single, hv,
          charVal_digitChar (n % 10) (Nat.mod_lt _ (by omega))]
        omega

lemma decimalDigits_inj {a b : Nat} (h : decimalDigits a = decimalDigits b) : a = b := by
  have ha := decimalDigitsAux_val (a + 1) a (by omega)
  have hb := decimalDigitsAux_val (b + 1) b (by omega)
  rw [← ha, ← hb]
  unfold decimalDigits at h
  rw [h]

lemma generate_ticket_id_injective : Function.Injective generate_ticket_id := by
  intro a b h
  apply decimalDigits_inj
  have h2 := congrArg String.data h
  simp only [generate_ticket_id] at h2
  exact List.append_cancel_left h2

/-- One escalation-creation event: the creation second (whose integral
value feeds the ticket id) and the record data. -/
structure AddEvent where
  ts : Nat
  now : String
  user_id : String
  reason : String
  priority : String
  conversation : List Message

/-- Create a ticket id from the event second and add the escalation. -/
def escStep (store : List Escalation) (ev : AddEvent) : List Escalation :=
  add_escalation store (generate_ticket_id ev.ts) ev.user_id ev.reason ev.priority
    ev.conversation ev.now

/-- All reachable escalation-store states: every record was created by
TicketTool._generate_ticket_id and appended by AdminStore.add_escalation. -/
def runEscalations (evs : List AddEvent) : List Escalation :=
  evs.foldl escStep []

/-- C4 counterexample: two escalations created within the same wall-clock
second receive the same TICKET-id, so the store holds duplicate ids. -/
theorem ticket_ids_collide_same_second :
    ((runEscalations
      [{ ts := 1700000000, now := "t0", user_id := "alice", reason := "fraud",
         priority := "HIGH", conversation := [] },
       { ts := 1700000000, now := "t1", user_id := "bob", reason := "refund",
         priority := "MEDIUM", conversation := [] }]).map Escalation.ticket_id =
      ["TICKET-1700000000", "TICKET-1700000000"]) ∧
    ¬ ((runEscalations
      [{ ts := 1700000000, now := "t0", user_id := "alice", reason := "fraud",
         priority := "HIGH", conversation := [] },
       { ts := 1700000000, now := "t1", user_id := "bob", reason := "refund",
         priority := "MEDIUM", conversation := [] }]).map Escalation.ticket_id).Nodup := by
  constructor <;> decide

lemma runEscalations_map_ids :
    ∀ (l : List AddEvent) (store : List Escalation),
      (l.foldl escStep store).map Escalation.ticket_id =
        store.map Escalation.ticket_id ++ l.map (fun e => generate_ticket_id e.ts) := by
  intro l
  induction l with
  | nil => intro store; simp
  | cons e l ih =>
      intro store
      rw [List.foldl_cons, ih]
      simp [escStep, add_escalation]

/-- C4 (amended): ticket ids in the store are pairwise distinct provided
the creation seconds of the escalation events are pairwise distinct; within
one second the generator repeats ids (see the counterexample). -/
theorem ticket_ids_unique_for_distinct_seconds (evs : List AddEvent)
    (h : (evs.map AddEvent.ts).Nodup) :
    ((runEscalations evs).map Escalation.ticket_id).Nodup := by
  have h1 := runEscalations_map_ids evs []
  simp only [runEscalations, h1, List.map_nil, List.nil_append]
  have h2 : evs.map (fun e => generate_ticket_id e.ts) =
      (evs.map AddEvent.ts).map generate_ticket_id := by
    simp [List.map_map]
  rw [h2]
  exact h.map generate_ticket_id_injective

/-- C4 witness: two events in distinct seconds give distinct ids. -/
theorem ticket_ids_unique_for_distinct_seconds_witness :
    ((runEscalations
      [{ ts := 1700000000, now := "t0", user_id := "alice", reason := "fraud",
         priority := "HIGH", conversation := [] },
       { ts := 1700000001, now := "t1", user_id := "bob", reason := "refund",
         priority := "MEDIUM", conversation := [] }]).map Escalation.ticket_id).Nodup :=
  ticket_ids_unique_for_distinct_seconds _ (by decide)

/-- C5: while the takeover flag is set, every turn returns the fixed
human-handling reply with escalated true and the whole agent state —
history, intent counts, failure streak, long-term memory, ticket store and
the flag itself — is returned unchanged (no generation, classification or
ticket creation can occur, and the flag stays true); the flag is reset
only by the explicit clear_memory operation. -/
theorem takeover_short_circuits_turns (caps : Capabilities) (ts : Nat)
    (now : String) (a : Agent) (msg : String) (h : a.human_takeover = true) :
    get_full_response caps ts now a msg =
      ({ output := human_takeover_reply, escalated := true, source_documents := [] }, a) ∧
    (∀ (b : Agent) (now2 : String), (clear_memory b now2).human_takeover = false) := by
  constructor
  · simp [get_full_response, h]
  · intro b now2
    rfl

/-- C5 witness: a concrete takeover-state agent is left untouched and a
concrete clear resets the flag. -/
theorem takeover_short_circuits_turns_witness :
    get_full_response
      { llm := fun _ => "generated", relevant_memory := fun _ _ => [],
        has_kb := false, kb_search := fun _ _ => [] } 7 "t5"
      { initAgent "u1" "t0" with human_takeover := true } "hello" =
      ({ output := human_takeover_reply, escalated := true, source_documents := [] },
       { initAgent "u1" "t0" with human_takeover := true }) ∧
    (∀ (b : Agent) (now2 : String), (clear_memory b now2).human_takeover = false) :=
  takeover_short_circuits_turns
    { llm := fun _ => "generated", relevant_memory := fun _ _ => [],
      has_kb := false, kb_search := fun _ _ => [] } 7 "t5"
    { initAgent "u1" "t0" with human_takeover := true } "hello" rfl

/-- C2: in the NORMAL state, on a turn that reaches the escalation checks
(no name extracted, not a name question), an accumulated count of at least
2 for REFUND_DEMAND or for COMPLAINT — counts taken after the current
message is classified — escalates the turn: a ticket with reason
"Repeated complaint or refund demand" and priority HIGH is appended to the
admin store, the result is escalated and takeover is entered.  The
statement holds for every message and every capability oracle, so in
particular also when the keyword pattern rule of step 5 would match: the
repeated-intent rule is decided first. -/
theorem repeated_intent_escalates (caps : Capabilities) (ts : Nat) (now : String)
    (a : Agent) (msg : String)
    (h0 : a.human_takeover = false)
    (h1 : extract_name msg = none)
    (h2 : is_name_question msg = false)
    (h3 : 2 ≤ get_intent_count (add_user_message a.memory msg now).2 "REFUND_DEMAND" ∨
          2 ≤ get_intent_count (add_user_message a.memory msg now).2 "COMPLAINT") :
    (get_full_response caps ts now a msg).1.escalated = true ∧
    (get_full_response caps ts now a msg).2.admin_store =
      a.admin_store ++
        [{ ticket_id := generate_ticket_id ts, user_id := a.user_id,
           reason := "Repeated complaint or refund demand", priority := "HIGH",
           status := "OPEN",
           conversation := (add_user_message a.memory msg now).2.history,
           created_at := now, updated_at := now }] ∧
    (get_full_response caps ts now a msg).2.human_takeover = true ∧
    lowerStr "Repeated complaint or refund demand" =
      "repeated complaint or refund demand" := by
  refine ⟨?_, ?_, ?_, by decide⟩ <;>
  · simp only [get_full_response, h0, h1, h2, Bool.false_eq_true, if_false]
    try rw [if_pos h3]
    try simp [handle_escalation, ticket_tool_run, add_escalation, add_agent_message,
      add_message]

/-- C2 witness: a second refund demand (after one recorded REFUND_DEMAND)
escalates a concrete agent even though the message also matches a HIGH
keyword pattern. -/
theorem repeated_intent_escalates_witness :
    ((get_full_response
      { llm := fun _ => "generated", relevant_memory := fun _ _ => [],
        has_kb := false, kb_search := fun _ _ => [] } 9 "t2"
      { user_id := "u1",
        memory :=
          { max_history := 20, sla_seconds := 1800, user_id := some "u1",
            history := [⟨"user", "i want a refund now", "t1"⟩],
            intent_history := ["REFUND_DEMAND"],
            intent_counter := fun k => if k = "REFUND_DEMAND" then 1 else 0,
            failed_ai_replies := 0, conversation_start := "t0" },
        human_takeover := false, long_term_memory := [], admin_store := [] }
      "i want a refund now").1.escalated = true) ∧
    ((get_full_response
      { llm := fun _ => "generated", relevant_memory := fun _ _ => [],
        has_kb := false, kb_search := fun _ _ => [] } 9 "t2"
      { user_id := "u1",
        memory :=
          { max_history := 20, sla_seconds := 1800, user_id := some "u1",
            history := [⟨"user", "i want a refund now", "t1"⟩],
            intent_history := ["REFUND_DEMAND"],
            intent_counter := fun k => if k = "REFUND_DEMAND" then 1 else 0,
            failed_ai_replies := 0, conversation_start := "t0" },
        human_takeover := false, long_term_memory := [], admin_store := [] }
      "i want a refund now").2.human_takeover = true) := by
  have h := repeated_intent_escalates
    { llm := fun _ => "generated", relevant_memory := fun _ _ => [],
      has_kb := false, kb_search := fun _ _ => [] } 9 "t2"
    { user_id := "u1",
      memory :=
        { max_history := 20, sla_seconds := 1800, user_id := some "u1",
          history := [⟨"user", "i want a refund now", "t1"⟩],
          intent_history := ["REFUND_DEMAND"],
          intent_counter := fun k => if k = "REFUND_DEMAND" then 1 else 0,
          failed_ai_replies := 0, conversation_start := "t0" },
      human_takeover := false, long_term_memory := [], admin_store := [] }
    "i want a refund now" rfl (by decide) (by decide)
    (Or.inl (by decide))
  exact ⟨h.1, h.2.2.1⟩

/-- C1 evidence: with the generation capability answering every prompt
with the i-dont-know failure indicator, three consecutive generated
turns leave failed_ai_replies at 0, none of the turns escalates, no ticket
is created and takeover is never entered — get_full_response contains no
failure-indicator inspection and never calls mark_failed_ai_reply, so the
escalation with reason "multiple failed AI responses" cannot fire. -/
theorem failed_replies_never_counted :
    (let caps : Capabilities :=
      { llm := fun _ => "I don" ++ apos ++ "t know",
        relevant_memory := fun _ _ => [], has_kb := false,
        kb_search := fun _ _ => [] }
     let a0 := initAgent "default_user" "t0"
     let r1 := get_full_response caps 100 "t1" a0 "tell me about shipping"
     let r2 := get_full_response caps 101 "t2" r1.2 "tell me about shipping"
     let r3 := get_full_response caps 102 "t3" r2.2 "tell me about shipping"
     r1.1.escalated = false ∧ r2.1.escalated = false ∧ r3.1.escalated = false ∧
     r1.1.output = "I don" ++ apos ++ "t know" ∧
     r3.1.output = "I don" ++ apos ++ "t know" ∧
     containsStr (lowerStr r3.1.output) ("i don" ++ apos ++ "t know") = true ∧
     r1.2.memory.failed_ai_replies = 0 ∧
     r2.2.memory.failed_ai_replies = 0 ∧
     r3.2.memory.failed_ai_replies = 0 ∧
     r3.2.human_takeover = false ∧
     r3.2.admin_store = []) := by decide
